import Mathlib

/-!
Verification of the calendar API gateway (`src/main.go`), a read-through
caching proxy.  The embedding below mirrors the Go source:

* `cacheEntry`, the cache map and its lookup/store (lines 17-24, 88, 116-121);
* the transport outcome of `httpClient.Get` plus `io.ReadAll` (lines 98-114);
* `serveCached` (lines 85-126) as a pure function from the cache state, the
  current time at lookup, the key, the transport outcome and the time at
  store, to the request outcome, the new cache state, and a trace of the
  lock / map / I/O events the Go function performs in program order;
* `eventIDRegex` / `eventByIDHandler` (lines 30, 67-83).

Time is modelled in nanoseconds (Go's `time.Duration` unit), as a `Nat`
instant; `time.Now().Before(u)` is `now < u`.
-/

/-- One nanosecond-denominated minute, as in Go's `time.Minute`. -/
def timeMinute : Nat := 60 * 1000000000

/-- `cacheTTL = 5 * time.Minute` (main.go line 14). -/
def cacheTTL : Nat := 5 * timeMinute

/-- `baseUpstream` (main.go line 13). -/
def baseUpstream : String := "https://calman02.barrierefrei.berlin/calendar/api/v1"

/-- `cacheEntry` (main.go lines 17-20): response bytes and absolute expiry. -/
structure cacheEntry where
  data : List Nat
  until_ : Nat
  deriving DecidableEq, Repr

/-- The cache map `map[string]cacheEntry` (main.go line 23), as an
association list; `cacheLookup` returns the most recent binding. -/
def Cache : Type := List (String × cacheEntry)

instance : DecidableEq Cache := by unfold Cache; infer_instance

/-- The map read `entry, ok := cache[upstream]` (main.go line 88). -/
def cacheLookup : Cache → String → Option cacheEntry
  | [], _ => none
  | (k, e) :: rest, key => if k = key then some e else cacheLookup rest key

/-- The map write `cache[upstream] = cacheEntry{...}` (main.go lines 117-120):
inserts or replaces the binding for the key. -/
def cacheStore (c : Cache) (key : String) (e : cacheEntry) : Cache :=
  (key, e) :: c

/-- Outcome of `httpClient.Get` followed by `io.ReadAll(resp.Body)`:
either a transport-level error (`err != nil` at line 99), or a response
carrying a status code and the result of reading its body (`none` when
`io.ReadAll` fails; the Go code only reads the body when the status check
passes). -/
inductive Transport where
  | failure : Transport
  | response (statusCode : Nat) (body : Option (List Nat)) : Transport
  deriving DecidableEq, Repr

/-- The error taxonomy of the fetch path (main.go lines 99-114). -/
inductive GetError where
  | upstreamUnavailable : GetError
  | upstreamError : GetError
  | upstreamReadFailure : GetError
  deriving DecidableEq, Repr

/-- The `X-Cache` marker (main.go lines 91, 124). -/
inductive Source where
  | HIT : Source
  | MISS : Source
  deriving DecidableEq, Repr

/-- Events of `serveCached` in program order: lock operations on
`cacheMutex`, map operations on `cache`, the outbound transport call, and
writes to the `http.ResponseWriter` (response I/O). -/
inductive Event where
  | rlock : Event
  | runlock : Event
  | lock : Event
  | unlock : Event
  | mapRead : Event
  | mapWrite : Event
  | transportCall : Event
  | respWrite : Event
  deriving DecidableEq, Repr

/-- The fetch path of `serveCached` (main.go lines 98-126), reached on a
miss: result, new cache, and the events after `RUnlock`. -/
def fetchPath (c : Cache) (upstream : String) (t : Transport) (now' : Nat) :
    Except GetError (List Nat × Source) × Cache × List Event :=
  match t with
  | .failure =>
      (.error .upstreamUnavailable, c, [.transportCall, .respWrite])
  | .response statusCode body =>
      if statusCode ≠ 200 then
        (.error .upstreamError, c, [.transportCall, .respWrite])
      else
        match body with
        | none =>
            (.error .upstreamReadFailure, c, [.transportCall, .respWrite])
        | some b =>
            (.ok (b, .MISS),
             cacheStore c upstream ⟨b, now' + cacheTTL⟩,
             [.transportCall, .lock, .mapWrite, .unlock, .respWrite])

/-- `serveCached` (main.go lines 85-126).  `now` is `time.Now()` at the
freshness check (line 89), `now'` is `time.Now()` at the store (line 119).
On a hit the cached bytes are written to the response while the read lock
is still held (lines 90-93 precede the `RUnlock` at line 93). -/
def serveCached (c : Cache) (now : Nat) (upstream : String) (t : Transport)
    (now' : Nat) : Except GetError (List Nat × Source) × Cache × List Event :=
  match cacheLookup c upstream with
  | some entry =>
      if now < entry.until_ then
        (.ok (entry.data, .HIT), c, [.rlock, .mapRead, .respWrite, .runlock])
      else
        let r := fetchPath c upstream t now'
        (r.1, r.2.1, [.rlock, .mapRead, .runlock] ++ r.2.2)
  | none =>
      let r := fetchPath c upstream t now'
      (r.1, r.2.1, [.rlock, .mapRead, .runlock] ++ r.2.2)

/-- Whether the freshness check of lines 88-89 passes: an entry is present
and `now` is strictly before its expiry. -/
def isHit (c : Cache) (now : Nat) (upstream : String) : Bool :=
  match cacheLookup c upstream with
  | some entry => now < entry.until_
  | none => false

/-- `eventIDRegex = ^[0-9]+$` membership for a single character. -/
def isASCIIDigit (ch : Char) : Bool := '0' ≤ ch && ch ≤ '9'

/-- `eventIDRegex.MatchString id` (main.go lines 30, 76): the identifier is
one or more ASCII digits. -/
def eventIDRegexMatch (s : String) : Bool :=
  !s.data.isEmpty && s.data.all isASCIIDigit

/-- Outcome of `eventByIDHandler` for a GET request (main.go lines 67-83):
either an immediate 400 rejection, or a fetch of the composed upstream URL. -/
inductive HandlerDecision where
  | badRequest : HandlerDecision
  | fetch (upstream : String) : HandlerDecision
  deriving DecidableEq, Repr

/-- `eventByIDHandler` (main.go lines 67-83), after the method check, as a
function of the extracted path suffix `id`. -/
def eventByIDHandler (id : String) : HandlerDecision :=
  if eventIDRegexMatch id then
    .fetch (baseUpstream ++ "/event/" ++ id)
  else
    .badRequest

/-- Whether an I/O event (transport call or response write) occurs in the
trace while at least one lock (read or write) on `cacheMutex` is held.
`d` is the current lock depth. -/
def anyIOUnderLock : List Event → Nat → Bool
  | [], _ => false
  | e :: rest, d =>
      match e with
      | .rlock => anyIOUnderLock rest (d + 1)
      | .runlock => anyIOUnderLock rest (d - 1)
      | .lock => anyIOUnderLock rest (d + 1)
      | .unlock => anyIOUnderLock rest (d - 1)
      | .transportCall => decide (0 < d) || anyIOUnderLock rest d
      | .respWrite => decide (0 < d) || anyIOUnderLock rest d
      | _ => anyIOUnderLock rest d

/-- Whether the transport call occurs while any lock on `cacheMutex` is
held. -/
def transportUnderLock : List Event → Nat → Bool
  | [], _ => false
  | e :: rest, d =>
      match e with
      | .rlock => transportUnderLock rest (d + 1)
      | .runlock => transportUnderLock rest (d - 1)
      | .lock => transportUnderLock rest (d + 1)
      | .unlock => transportUnderLock rest (d - 1)
      | .transportCall => decide (0 < d) || transportUnderLock rest d
      | _ => transportUnderLock rest d

/-- Whether an I/O event occurs while the exclusive (write) lock is held;
only `.lock` / `.unlock` change the depth. -/
def anyIOUnderWriteLock : List Event → Nat → Bool
  | [], _ => false
  | e :: rest, d =>
      match e with
      | .lock => anyIOUnderWriteLock rest (d + 1)
      | .unlock => anyIOUnderWriteLock rest (d - 1)
      | .transportCall => decide (0 < d) || anyIOUnderWriteLock rest d
      | .respWrite => decide (0 < d) || anyIOUnderWriteLock rest d
      | _ => anyIOUnderWriteLock rest d

/-! ### Helper lemmas -/

lemma isHit_iff (c : Cache) (now : Nat) (s : String) :
    isHit c now s = true ↔ ∃ e, cacheLookup c s = some e ∧ now < e.until_ := by
  unfold isHit
  cases h : cacheLookup c s <;> simp

lemma isHit_eq_false_iff (c : Cache) (now : Nat) (s : String) :
    isHit c now s = false ↔ ∀ e, cacheLookup c s = some e → e.until_ ≤ now := by
  rw [← Bool.not_eq_true, isHit_iff]
  push_neg
  simp only [not_lt]

lemma serveCached_of_hit (c : Cache) (now now' : Nat) (s : String) (t : Transport)
    (e : cacheEntry) (he : cacheLookup c s = some e) (hf : now < e.until_) :
    serveCached c now s t now' =
      (Except.ok (e.data, Source.HIT), c,
       [Event.rlock, Event.mapRead, Event.respWrite, Event.runlock]) := by
  unfold serveCached
  rw [he]
  simp [hf]

lemma serveCached_of_miss (c : Cache) (now now' : Nat) (s : String) (t : Transport)
    (h : isHit c now s = false) :
    serveCached c now s t now' =
      ((fetchPath c s t now').1, (fetchPath c s t now').2.1,
       [Event.rlock, Event.mapRead, Event.runlock] ++ (fetchPath c s t now').2.2) := by
  unfold serveCached
  unfold isHit at h
  cases hl : cacheLookup c s with
  | none => simp
  | some e =>
      rw [hl] at h
      simp only [decide_eq_false_iff_not] at h
      simp [h]

lemma fetchPath_failure (c : Cache) (s : String) (now' : Nat) :
    fetchPath c s .failure now' =
      (.error .upstreamUnavailable, c, [Event.transportCall, Event.respWrite]) := rfl

lemma fetchPath_badStatus (c : Cache) (s : String) (now' : Nat) (st : Nat)
    (b : Option (List Nat)) (hst : st ≠ 200) :
    fetchPath c s (.response st b) now' =
      (.error .upstreamError, c, [Event.transportCall, Event.respWrite]) := by
  unfold fetchPath
  simp [hst]

lemma fetchPath_readFail (c : Cache) (s : String) (now' : Nat) :
    fetchPath c s (.response 200 none) now' =
      (.error .upstreamReadFailure, c, [Event.transportCall, Event.respWrite]) := rfl

lemma fetchPath_ok (c : Cache) (s : String) (now' : Nat) (b : List Nat) :
    fetchPath c s (.response 200 (some b)) now' =
      (.ok (b, .MISS), cacheStore c s ⟨b, now' + cacheTTL⟩,
       [Event.transportCall, Event.lock, Event.mapWrite, Event.unlock,
        Event.respWrite]) := rfl

lemma cacheLookup_store (c : Cache) (k : String) (e : cacheEntry) :
    cacheLookup (cacheStore c k e) k = some e := by
  unfold cacheStore cacheLookup
  simp

lemma fetchPath_trace_cases (c : Cache) (s : String) (t : Transport) (now' : Nat) :
    (fetchPath c s t now').2.2 = [Event.transportCall, Event.respWrite] ∨
    (fetchPath c s t now').2.2 =
      [Event.transportCall, Event.lock, Event.mapWrite, Event.unlock,
       Event.respWrite] := by
  cases t with
  | failure => left; rw [fetchPath_failure]
  | response st b =>
      by_cases hst : st = 200
      · subst hst
        cases b with
        | none => left; rw [fetchPath_readFail]
        | some bb => right; rw [fetchPath_ok]
      · left; rw [fetchPath_badStatus c s now' st b hst]

lemma transportCall_mem_fetchPath (c : Cache) (s : String) (t : Transport) (now' : Nat) :
    Event.transportCall ∈ (fetchPath c s t now').2.2 := by
  rcases fetchPath_trace_cases c s t now' with h | h <;> rw [h] <;> simp

lemma serveCached_ok_store (c : Cache) (now now' : Nat) (s : String) (b : List Nat)
    (h : isHit c now s = false) :
    cacheLookup (serveCached c now s (.response 200 (some b)) now').2.1 s =
      some ⟨b, now' + cacheTTL⟩ := by
  rw [serveCached_of_miss c now now' s _ h, fetchPath_ok]
  exact cacheLookup_store c s _

lemma serveCached_error_cache_eq (c : Cache) (now now' : Nat) (s : String)
    (t : Transport) (err : GetError)
    (h : (serveCached c now s t now').1 = .error err) :
    (serveCached c now s t now').2.1 = c := by
  by_cases hh : isHit c now s
  · obtain ⟨e, he, hf⟩ := (isHit_iff _ _ _).mp hh
    rw [serveCached_of_hit c now now' s t e he hf] at h
    exact absurd h (by simp)
  · have hh' : isHit c now s = false := by simpa using hh
    rw [serveCached_of_miss c now now' s t hh'] at h ⊢
    cases t with
    | failure => rfl
    | response st b =>
        by_cases hst : st = 200
        · subst hst
          cases b with
          | none => rfl
          | some bb =>
              rw [fetchPath_ok] at h
              exact absurd h (by simp)
        · rw [fetchPath_badStatus c s now' st b hst]

/-! ### Claims -/

/-- C1: `Get` serves from cache exactly when an entry for the key is present
with `expiresAt` strictly after the current time; then it returns the cached
payload with source HIT, no error, and an unchanged cache, making no
transport call; in every other case it invokes the outbound transport. -/
theorem get_hit_iff_fresh_entry (c : Cache) (now now' : Nat) (s : String)
    (t : Transport) :
    (∀ e, cacheLookup c s = some e → now < e.until_ →
        serveCached c now s t now' =
          (Except.ok (e.data, Source.HIT), c,
           [Event.rlock, Event.mapRead, Event.respWrite, Event.runlock]))
    ∧ (Event.transportCall ∈ (serveCached c now s t now').2.2 ↔
        ¬ ∃ e, cacheLookup c s = some e ∧ now < e.until_) := by
  constructor
  · intro e he hf
    exact serveCached_of_hit c now now' s t e he hf
  · by_cases h : isHit c now s
    · obtain ⟨e, he, hf⟩ := (isHit_iff c now s).mp h
      rw [serveCached_of_hit c now now' s t e he hf]
      exact iff_of_false (by simp) (not_not_intro ⟨e, he, hf⟩)
    · have h' : isHit c now s = false := by simpa using h
      rw [serveCached_of_miss c now now' s t h']
      refine iff_of_true
        (List.mem_append.mpr (Or.inr (transportCall_mem_fetchPath c s t now'))) ?_
      rw [← isHit_iff]
      simp [h']

/-- Witness for C1 at a concrete fresh entry. -/
theorem get_hit_iff_fresh_entry_witness :
    serveCached [("k", ⟨[7], 10⟩)] 3 "k" Transport.failure 4 =
      (Except.ok ([7], Source.HIT), [("k", ⟨[7], 10⟩)],
       [Event.rlock, Event.mapRead, Event.respWrite, Event.runlock]) :=
  (get_hit_iff_fresh_entry [("k", ⟨[7], 10⟩)] 3 4 "k" Transport.failure).1
    ⟨[7], 10⟩ (by decide) (by decide)

/-- C2: on a cache miss, the fetch path fails with `upstreamUnavailable` iff
the transport call itself fails, with `upstreamError` iff a response arrives
whose status is not OK, and with `upstreamReadFailure` iff an OK response's
body cannot be fully read; the three iffs pin down every error kind the
fetch path can produce. -/
theorem miss_error_taxonomy (c : Cache) (now now' : Nat) (s : String)
    (t : Transport) (h : isHit c now s = false) :
    ((serveCached c now s t now').1 = .error .upstreamUnavailable ↔
        t = .failure)
    ∧ ((serveCached c now s t now').1 = .error .upstreamError ↔
        ∃ st b, t = .response st b ∧ st ≠ 200)
    ∧ ((serveCached c now s t now').1 = .error .upstreamReadFailure ↔
        t = .response 200 none) := by
  rw [serveCached_of_miss c now now' s t h]
  cases t with
  | failure =>
      rw [fetchPath_failure]
      refine ⟨by simp, ?_, by simp⟩
      simp only [iff_iff_implies_and_implies]
      constructor
      · intro hh; exact absurd hh (by simp)
      · rintro ⟨st, b, hh, _⟩; exact absurd hh (by simp)
  | response st b =>
      by_cases hst : st = 200
      · subst hst
        cases b with
        | none =>
            rw [fetchPath_readFail]
            refine ⟨by simp, ?_, by simp⟩
            simp only [iff_iff_implies_and_implies]
            constructor
            · intro hh; exact absurd hh (by simp)
            · rintro ⟨st', b', hh, hne⟩
              injection hh with h1 h2
              exact absurd h1.symm hne
        | some bb =>
            rw [fetchPath_ok]
            refine ⟨by simp, ?_, by simp⟩
            simp only [iff_iff_implies_and_implies]
            constructor
            · intro hh; exact absurd hh (by simp)
            · rintro ⟨st', b', hh, hne⟩
              injection hh with h1 h2
              exact absurd h1.symm hne
      · rw [fetchPath_badStatus c s now' st b hst]
        refine ⟨by simp, ?_, ?_⟩
        · constructor
          · intro _
            exact ⟨st, b, rfl, hst⟩
          · intro _
            rfl
        · simp only [iff_iff_implies_and_implies]
          constructor
          · intro hh; exact absurd hh (by simp)
          · intro hh
            injection hh with h1 h2
            exact absurd h1 hst

/-- Witness for C2: empty cache, transport failure yields `upstreamUnavailable`. -/
theorem miss_error_taxonomy_witness :
    (serveCached [] 0 "k" Transport.failure 5).1 =
      .error .upstreamUnavailable :=
  (miss_error_taxonomy [] 0 5 "k" Transport.failure (by decide)).1.mpr rfl

/-- C3: on a cache miss where the transport returns status 200 and the body
is fully read, `serveCached` stores the body under the key with expiry the
store-time plus a TTL of five minutes, and returns the body with source
MISS and no error. -/
theorem miss_success_stores_and_returns (c : Cache) (now now' : Nat)
    (s : String) (b : List Nat) (h : isHit c now s = false) :
    serveCached c now s (.response 200 (some b)) now' =
      (Except.ok (b, Source.MISS),
       cacheStore c s ⟨b, now' + 5 * timeMinute⟩,
       [Event.rlock, Event.mapRead, Event.runlock, Event.transportCall,
        Event.lock, Event.mapWrite, Event.unlock, Event.respWrite])
    ∧ cacheLookup (serveCached c now s (.response 200 (some b)) now').2.1 s =
        some ⟨b, now' + 5 * timeMinute⟩ := by
  have h1 := serveCached_of_miss c now now' s (.response 200 (some b)) h
  rw [fetchPath_ok] at h1
  refine ⟨by rw [h1]; rfl, ?_⟩
  rw [h1]
  exact cacheLookup_store c s _

/-- Witness for C3 at a concrete miss. -/
theorem miss_success_stores_and_returns_witness :
    serveCached [] 0 "k" (.response 200 (some [9])) 7 =
      (Except.ok ([9], Source.MISS),
       cacheStore [] "k" ⟨[9], 7 + 5 * timeMinute⟩,
       [Event.rlock, Event.mapRead, Event.runlock, Event.transportCall,
        Event.lock, Event.mapWrite, Event.unlock, Event.respWrite]) :=
  (miss_success_stores_and_returns [] 0 7 "k" [9] (by decide)).1

/-- C4: a failed `Get` leaves the cache unchanged, so a key absent before is
still absent afterward, and a subsequent successful `Get` for the same key
populates the cache normally. -/
theorem failure_leaves_cache_unchanged (c : Cache) (now now' : Nat)
    (s : String) (t : Transport) (err : GetError)
    (h : (serveCached c now s t now').1 = .error err) :
    (serveCached c now s t now').2.1 = c
    ∧ (cacheLookup c s = none →
        cacheLookup (serveCached c now s t now').2.1 s = none)
    ∧ (∀ now₂ now₂' b, isHit (serveCached c now s t now').2.1 now₂ s = false →
        cacheLookup
          (serveCached (serveCached c now s t now').2.1 now₂ s
            (.response 200 (some b)) now₂').2.1 s = some ⟨b, now₂' + cacheTTL⟩) := by
  have hc := serveCached_error_cache_eq c now now' s t err h
  refine ⟨hc, ?_, ?_⟩
  · intro hnone
    rw [hc]
    exact hnone
  · intro now₂ now₂' b hmiss
    exact serveCached_ok_store _ now₂ now₂' s b hmiss

/-- Witness for C4: a transport failure on an empty cache writes nothing,
and a later successful fetch populates the key. -/
theorem failure_leaves_cache_unchanged_witness :
    (serveCached [] 0 "k" Transport.failure 5).2.1 = []
    ∧ cacheLookup (serveCached [] 0 "k" Transport.failure 5).2.1 "k" = none
    ∧ cacheLookup
        (serveCached (serveCached [] 0 "k" Transport.failure 5).2.1 6 "k"
          (.response 200 (some [9])) 7).2.1 "k" = some ⟨[9], 7 + cacheTTL⟩ := by
  have H := failure_leaves_cache_unchanged [] 0 5 "k" Transport.failure
    .upstreamUnavailable rfl
  exact ⟨H.1, H.2.1 (by decide), H.2.2 6 7 [9] (by decide)⟩

/-- C5: the by-id handler accepts an identifier exactly when it consists of
one or more ASCII digits, composing the upstream URL from it; all other
inputs are rejected with a bad-request decision, never reaching the fetch
path.  Checked on the spec's concrete examples. -/
theorem event_id_validation_gate :
    (∀ id : String,
        (∃ u, eventByIDHandler id = HandlerDecision.fetch u) ↔
          (id.data ≠ [] ∧ ∀ ch ∈ id.data, '0' ≤ ch ∧ ch ≤ '9'))
    ∧ eventByIDHandler "123" = .fetch (baseUpstream ++ "/event/123")
    ∧ eventByIDHandler "0" = .fetch (baseUpstream ++ "/event/0")
    ∧ eventByIDHandler "12a" = .badRequest
    ∧ eventByIDHandler "-1" = .badRequest
    ∧ eventByIDHandler "" = .badRequest
    ∧ eventByIDHandler "1 2" = .badRequest := by
  refine ⟨?_, by decide, by decide, by decide, by decide, by decide, by decide⟩
  intro id
  have hchar : ∀ ch : Char, isASCIIDigit ch = true ↔ ('0' ≤ ch ∧ ch ≤ '9') := by
    intro ch
    simp [isASCIIDigit]
  constructor
  · rintro ⟨u, hu⟩
    unfold eventByIDHandler at hu
    by_cases hcond : eventIDRegexMatch id = true
    · unfold eventIDRegexMatch at hcond
      simp only [Bool.and_eq_true, Bool.not_eq_true'] at hcond
      obtain ⟨hne, hall⟩ := hcond
      refine ⟨by simpa using hne, ?_⟩
      intro ch hch
      exact (hchar ch).mp (List.all_eq_true.mp hall ch hch)
    · rw [if_neg hcond] at hu
      exact absurd hu (by simp)
  · rintro ⟨hne, hall⟩
    have hcond : eventIDRegexMatch id = true := by
      unfold eventIDRegexMatch
      simp only [Bool.and_eq_true, Bool.not_eq_true']
      refine ⟨by simpa using hne, ?_⟩
      exact List.all_eq_true.mpr fun ch hch => (hchar ch).mpr (hall ch hch)
    unfold eventByIDHandler
    rw [if_pos hcond]
    exact ⟨_, rfl⟩

/-- Witness for C5: the identifier 123 is accepted by the by-id path. -/
theorem event_id_validation_gate_witness :
    ∃ u, eventByIDHandler "123" = HandlerDecision.fetch u :=
  (event_id_validation_gate.1 "123").mpr (by decide)

/-- C6: storing A then B under the same key leaves the lookup returning B
with B's expiry; the replacement is wholesale, and a successful re-fetch on
a miss likewise replaces the visible entry for the key. -/
theorem store_replaces_wholesale (c : Cache) (k : String) (A B : List Nat)
    (ttl1 ttl2 now1 now2 : Nat) :
    cacheLookup (cacheStore (cacheStore c k ⟨A, now1 + ttl1⟩) k
        ⟨B, now2 + ttl2⟩) k = some ⟨B, now2 + ttl2⟩
    ∧ (∀ e, cacheLookup (cacheStore (cacheStore c k ⟨A, now1 + ttl1⟩) k
          ⟨B, now2 + ttl2⟩) k = some e → e.data = B ∧ e.until_ = now2 + ttl2)
    ∧ (∀ now now', isHit (cacheStore c k ⟨A, now1 + ttl1⟩) now k = false →
        cacheLookup
          (serveCached (cacheStore c k ⟨A, now1 + ttl1⟩) now k
            (.response 200 (some B)) now').2.1 k = some ⟨B, now' + cacheTTL⟩) := by
  refine ⟨cacheLookup_store _ _ _, ?_, ?_⟩
  · intro e he
    rw [cacheLookup_store] at he
    injection he with hh
    rw [← hh]
    exact ⟨rfl, rfl⟩
  · intro now now' h
    exact serveCached_ok_store _ now now' k B h

/-- Witness for C6 at concrete payloads, including the re-fetch clause on an
expired entry. -/
theorem store_replaces_wholesale_witness :
    cacheLookup (cacheStore (cacheStore [] "k" ⟨[1], 0 + 5⟩) "k"
        ⟨[2], 1 + 5⟩) "k" = some ⟨[2], 1 + 5⟩
    ∧ cacheLookup
        (serveCached (cacheStore [] "k" ⟨[1], 0 + 5⟩) 9 "k"
          (.response 200 (some [2])) 9).2.1 "k" = some ⟨[2], 9 + cacheTTL⟩ :=
  ⟨(store_replaces_wholesale [] "k" [1] [2] 5 5 0 1).1,
   (store_replaces_wholesale [] "k" [1] [2] 5 5 0 1).2.2 9 9 (by decide)⟩

/-- C7: when the entry for the key has expired and the refresh fetch fails
(in any of the three ways), the request fails with an error, the stale
payload is not served, and the expired entry is still present in the
unchanged cache. -/
theorem expired_not_served_on_failed_refresh (c : Cache) (now now' : Nat)
    (s : String) (t : Transport) (e : cacheEntry)
    (he : cacheLookup c s = some e) (hexp : e.until_ ≤ now)
    (hfail : t = .failure ∨ (∃ st b, t = .response st b ∧ st ≠ 200) ∨
             t = .response 200 none) :
    (∃ err, (serveCached c now s t now').1 = Except.error err)
    ∧ (serveCached c now s t now').2.1 = c
    ∧ cacheLookup (serveCached c now s t now').2.1 s = some e := by
  have hm : isHit c now s = false := by
    rw [isHit_eq_false_iff]
    intro e' he'
    rw [he] at he'
    injection he' with hh
    exact hh ▸ hexp
  rw [serveCached_of_miss c now now' s t hm]
  rcases hfail with rfl | ⟨st, b, rfl, hst⟩ | rfl
  · rw [fetchPath_failure]
    exact ⟨⟨_, rfl⟩, rfl, he⟩
  · rw [fetchPath_badStatus c s now' st b hst]
    exact ⟨⟨_, rfl⟩, rfl, he⟩
  · rw [fetchPath_readFail]
    exact ⟨⟨_, rfl⟩, rfl, he⟩

/-- Witness for C7: an entry expired at instant 10, queried at instant 10
with a failing transport, is not served and stays in place. -/
theorem expired_not_served_on_failed_refresh_witness :
    (∃ err, (serveCached [("k", ⟨[7], 10⟩)] 10 "k" Transport.failure 12).1 =
        Except.error err)
    ∧ (serveCached [("k", ⟨[7], 10⟩)] 10 "k" Transport.failure 12).2.1 =
        [("k", ⟨[7], 10⟩)]
    ∧ cacheLookup
        (serveCached [("k", ⟨[7], 10⟩)] 10 "k" Transport.failure 12).2.1 "k" =
        some ⟨[7], 10⟩ :=
  expired_not_served_on_failed_refresh [("k", ⟨[7], 10⟩)] 10 12 "k"
    Transport.failure ⟨[7], 10⟩ (by decide) (by decide) (Or.inl rfl)

/-- Counterexample to C8: with a fresh entry for the key, the cached payload
is written to the response while the read lock is still held, so I/O does
occur under a lock on the cache. -/
theorem lookup_writes_response_under_read_lock :
    anyIOUnderLock
      (serveCached [("k", ⟨[7], 10⟩)] 0 "k" Transport.failure 0).2.2 0 =
      true := by decide

/-- C8 amended: I/O occurs under a cache lock exactly on a hit, where the
cached payload is written to the response inside the read-locked section;
the transport call is never made under any lock, and no I/O happens under
the exclusive (write) lock. -/
theorem io_under_lock_only_on_hit (c : Cache) (now now' : Nat) (s : String)
    (t : Transport) :
    anyIOUnderLock (serveCached c now s t now').2.2 0 = isHit c now s
    ∧ transportUnderLock (serveCached c now s t now').2.2 0 = false
    ∧ anyIOUnderWriteLock (serveCached c now s t now').2.2 0 = false := by
  by_cases h : isHit c now s
  · obtain ⟨e, he, hf⟩ := (isHit_iff _ _ _).mp h
    rw [serveCached_of_hit c now now' s t e he hf, h]
    exact ⟨rfl, rfl, rfl⟩
  · have h' : isHit c now s = false := by simpa using h
    rw [serveCached_of_miss c now now' s t h', h']
    rcases fetchPath_trace_cases c s t now' with hh | hh <;> rw [hh] <;>
      exact ⟨rfl, rfl, rfl⟩

/-- Witness for the amended C8 at concrete inputs, one hit and one miss. -/
theorem io_under_lock_only_on_hit_witness :
    (anyIOUnderLock
        (serveCached [("k", ⟨[7], 10⟩)] 0 "k" Transport.failure 0).2.2 0 =
        isHit [("k", ⟨[7], 10⟩)] 0 "k")
    ∧ transportUnderLock (serveCached [] 0 "k" Transport.failure 0).2.2 0 =
        false
    ∧ anyIOUnderWriteLock
        (serveCached [] 0 "k" (.response 200 (some [9])) 3).2.2 0 = false :=
  ⟨(io_under_lock_only_on_hit [("k", ⟨[7], 10⟩)] 0 0 "k" Transport.failure).1,
   (io_under_lock_only_on_hit [] 0 0 "k" Transport.failure).2.1,
   (io_under_lock_only_on_hit [] 0 3 "k" (.response 200 (some [9]))).2.2⟩

/-- C9: the read path performs no mutation: on a hit the cache is returned
unchanged, no map write and no exclusive lock appears in the trace, and
iterating the call any number of times leaves the cache state fixed. -/
theorem read_path_no_mutation (c : Cache) (now now' : Nat) (s : String)
    (t : Transport) (h : isHit c now s = true) :
    (serveCached c now s t now').2.1 = c
    ∧ Event.mapWrite ∉ (serveCached c now s t now').2.2
    ∧ Event.lock ∉ (serveCached c now s t now').2.2
    ∧ ∀ n : Nat, (fun c₂ => (serveCached c₂ now s t now').2.1)^[n] c = c := by
  obtain ⟨e, he, hf⟩ := (isHit_iff _ _ _).mp h
  have hs := serveCached_of_hit c now now' s t e he hf
  refine ⟨by rw [hs], by rw [hs]; simp, by rw [hs]; simp, ?_⟩
  intro n
  induction n with
  | zero => rfl
  | succ k ih =>
      rw [Function.iterate_succ_apply', ih]
      show (serveCached c now s t now').2.1 = c
      rw [hs]

/-- Witness for C9 on a concrete fresh entry, iterated three times. -/
theorem read_path_no_mutation_witness :
    (serveCached [("k", ⟨[7], 10⟩)] 3 "k" Transport.failure 4).2.1 =
      [("k", ⟨[7], 10⟩)]
    ∧ (fun c₂ => (serveCached c₂ 3 "k" Transport.failure 4).2.1)^[3]
        [("k", ⟨[7], 10⟩)] = [("k", ⟨[7], 10⟩)] :=
  ⟨(read_path_no_mutation [("k", ⟨[7], 10⟩)] 3 4 "k" Transport.failure
      (by decide)).1,
   (read_path_no_mutation [("k", ⟨[7], 10⟩)] 3 4 "k" Transport.failure
      (by decide)).2.2.2 3⟩

/-- C10: on a miss, a received response succeeds exactly when its status is
200; any other status — including 204 and 302 — yields `upstreamError` with
the cache unchanged. -/
theorem success_status_exactly_200 (c : Cache) (now now' : Nat) (s : String)
    (st : Nat) (b : Option (List Nat)) (h : isHit c now s = false) :
    (st ≠ 200 →
        (serveCached c now s (.response st b) now').1 = .error .upstreamError
        ∧ (serveCached c now s (.response st b) now').2.1 = c)
    ∧ ((serveCached c now s (.response st b) now').1 = .error .upstreamError →
        st ≠ 200)
    ∧ (serveCached [] 0 s (.response 204 b) now').1 = .error .upstreamError
    ∧ (serveCached [] 0 s (.response 302 b) now').1 = .error .upstreamError := by
  have h204 : isHit [] 0 s = false := rfl
  refine ⟨?_, ?_, ?_, ?_⟩
  · intro hst
    rw [serveCached_of_miss c now now' s _ h,
      fetchPath_badStatus c s now' st b hst]
    exact ⟨rfl, rfl⟩
  · intro herr
    rw [serveCached_of_miss c now now' s _ h] at herr
    intro hst
    subst hst
    cases b with
    | none =>
        rw [fetchPath_readFail] at herr
        exact absurd herr (by simp)
    | some bb =>
        rw [fetchPath_ok] at herr
        exact absurd herr (by simp)
  · rw [serveCached_of_miss [] 0 now' s _ h204,
      fetchPath_badStatus [] s now' 204 b (by decide)]
  · rw [serveCached_of_miss [] 0 now' s _ h204,
      fetchPath_badStatus [] s now' 302 b (by decide)]

/-- Witness for C10: a 500 response on an empty cache fails with
`upstreamError` and writes nothing. -/
theorem success_status_exactly_200_witness :
    (serveCached [] 0 "k" (.response 500 (some [9])) 2).1 =
      .error .upstreamError
    ∧ (serveCached [] 0 "k" (.response 500 (some [9])) 2).2.1 = [] :=
  (success_status_exactly_200 [] 0 2 "k" 500 (some [9]) (by decide)).1
    (by decide)
